import Mathlib

/-!
Shallow embedding of the otel-http-logger core: the batching OTLP transport
(OtelBackend), the contextual Logger facade, and the ambient current-logger
slot.  Effects are made explicit: wall-clock readings (`Date.now()`), freshly
generated span ids, and fetch outcomes are passed in as parameters; a list of
transports models the JavaScript object heap so that reference sharing is
observable.
-/

namespace OtelSpec

/-- Model of a JavaScript attribute value (the `any` in
`attributes?: Record<string, any>`).  Objects are modelled one level deep,
with string fields; the properties under study never inspect the serialized
object text, only which coercion branch is taken. -/
inductive JSValue where
  | vstr (s : String)
  | vnum (n : Int)
  | vbool (b : Bool)
  | vnull
  | vobj (fields : List (String × String))
deriving DecidableEq, Repr

/-- JavaScript object update `m[k] = v`: an existing key keeps its position
and gets the new value, a new key is appended at the end (insertion order). -/
def objSet (m : List (String × String)) (k v : String) : List (String × String) :=
  if m.any (fun p => p.1 == k) then
    m.map (fun p => if p.1 == k then (k, v) else p)
  else
    m ++ [(k, v)]

/-- JavaScript object spread `\x7b ...base, ...add \x7d`: fold the entries of
`add` over `base` with `objSet`. -/
def objSpread (base add : List (String × String)) : List (String × String) :=
  add.foldl (fun acc kv => objSet acc kv.1 kv.2) base

/-- JavaScript property read `m[k]`, as the first entry with key `k`. -/
def objGet (m : List (String × String)) (k : String) : Option String :=
  (m.find? (fun p => p.1 == k)).map (fun p => p.2)

/-- Same update operation for attribute records whose values are `JSValue`
(used by `Logger.error`, which assigns `errorName` and friends onto a copy
of the caller attributes). -/
def recordSet (m : List (String × JSValue)) (k : String) (v : JSValue) :
    List (String × JSValue) :=
  if m.any (fun p => p.1 == k) then
    m.map (fun p => if p.1 == k then (k, v) else p)
  else
    m ++ [(k, v)]

/-- Headers as built by the OtelBackend constructor:
`\x7b "Content-Type": "application/json", ...config.headers \x7d`. -/
def mkHeaders (callerHeaders : List (String × String)) : List (String × String) :=
  objSpread [("Content-Type", "application/json")] callerHeaders

/-- The closed `LogLevel` string enumeration from types.ts. -/
inductive LogLevel where
  | DEBUG
  | INFO
  | WARN
  | ERROR
deriving DecidableEq, Repr

/-- The enumeration value string (TypeScript stores the enum as its name). -/
def LogLevel.toText : LogLevel → String
  | .DEBUG => "DEBUG"
  | .INFO => "INFO"
  | .WARN => "WARN"
  | .ERROR => "ERROR"

/-- `level.toLowerCase()` on the enum string. -/
def LogLevel.toLower : LogLevel → String
  | .DEBUG => "debug"
  | .INFO => "info"
  | .WARN => "warn"
  | .ERROR => "error"

/-- `mapLogLevelToSeverityNumber` from otel.ts.  The enum is closed, so the
default branch of the switch (returning 9) is unreachable and not modelled. -/
def mapLogLevelToSeverityNumber : LogLevel → Nat
  | .DEBUG => 5
  | .INFO => 9
  | .WARN => 13
  | .ERROR => 17

/-- The attribute-value coercion in `createLogRecord`:
`typeof value === "object" && value !== null ? JSON.stringify(value) : String(value)`.
`null` has typeof `object` but fails the non-null check, so it takes the
`String(value)` branch and becomes the text `null`. -/
def coerceAttrValue : JSValue → String
  | JSValue.vstr s => s
  | JSValue.vnum n => toString n
  | JSValue.vbool b => if b then "true" else "false"
  | JSValue.vnull => "null"
  | JSValue.vobj fields =>
      "\x7b" ++
        String.intercalate ","
          (fields.map (fun kv => "\x22" ++ kv.1 ++ "\x22:\x22" ++ kv.2 ++ "\x22")) ++
      "\x7d"

/-- One `key / value.stringValue` pair of a wire log record. -/
structure Attribute where
  key : String
  stringValue : String
deriving DecidableEq, Repr

/-- The `LogRecord` wire shape from types.ts.  `body` stands for
`body.stringValue`; the timestamps are kept as the decimal strings the code
stores (`now.toString()`). -/
structure LogRecord where
  timestamp : String
  observedTimestamp : String
  severityNumber : Nat
  severityText : String
  body : String
  traceId : String
  spanId : String
  attributes : List Attribute
deriving DecidableEq, Repr

/-- The `OtelConfig` configuration surface. -/
structure OtelConfig where
  endpoint : String
  headers : List (String × String)
  serviceName : String
  environment : String
deriving DecidableEq, Repr

/-- The mutable state of one `OtelBackend` transport instance. -/
structure OtelBackend where
  endpoint : String
  headers : List (String × String)
  serviceName : String
  environment : String
  logQueue : List LogRecord
  parentSpanId : String
  parentTraceId : String
  lastTimestamp : Nat
  maxRetries : Nat
  retryDelay : Nat
deriving DecidableEq, Repr

/-- The `OtelBackend` constructor.  The two random root identifiers are
passed in as parameters `traceId` and `spanId`. -/
def OtelBackend.construct (config : OtelConfig) (traceId spanId : String) :
    OtelBackend :=
  { endpoint := config.endpoint
    headers := mkHeaders config.headers
    serviceName := config.serviceName
    environment := config.environment
    logQueue := []
    parentSpanId := spanId
    parentTraceId := traceId
    lastTimestamp := 0
    maxRetries := 3
    retryDelay := 1000 }

/-- Floor of the base-2 logarithm, by structural recursion on a fuel of 64
binary digits: exact for every value below 2^64, which covers every number
this embedding manipulates. -/
def log2fuel : Nat → Nat → Nat
  | 0, _ => 0
  | fuel + 1, n => if n < 2 then 0 else log2fuel fuel (n / 2) + 1

/-- Round a natural number to the nearest IEEE-754 binary64 value
(round-to-nearest, ties-to-even), returned as a natural number.  Below 2^53
every natural number is exactly representable; at larger magnitudes only
multiples of 2^(floorLog2 n - 52) are — that power of two is the unit in
the last place at that magnitude. -/
def roundDouble (n : Nat) : Nat :=
  if n < 2 ^ 53 then n
  else
    let e := log2fuel 64 n - 52
    let u := 2 ^ e
    let q := n / u
    let r := n % u
    if 2 * r < u then q * u
    else if 2 * r > u then (q + 1) * u
    else if q % 2 = 0 then q * u else (q + 1) * u

/-- Timestamp assignment in `createLogRecord`, over IEEE-754 binary64
arithmetic as JavaScript performs it.  `Date.now()` is an integral double
below 2^53, hence exact; the product with 1000000 rounds to the nearest
double; when the result is not greater than the last assigned timestamp the
code computes `lastTimestamp + 1`, and that sum again rounds to the nearest
double — at nanosecond magnitudes of the current epoch (unit in the last
place 256 above 2^60) the increment rounds back to `lastTimestamp`, so the
uniqueness bump does not change the value. -/
def assignTs (lastTimestamp dateNow : Nat) : Nat :=
  let now := roundDouble (dateNow * 1000000)
  if now ≤ lastTimestamp then roundDouble (lastTimestamp + 1) else now

/-- The fixed attributes placed at the front of every record: `level`,
`service.name`, `environment`, and — for every non-parent-span record —
`parent.id` carrying the root span id of the owning transport. -/
def fixedAttrs (b : OtelBackend) (level : LogLevel) (isParentSpan : Bool) :
    List Attribute :=
  [⟨"level", level.toLower⟩,
   ⟨"service.name", b.serviceName⟩,
   ⟨"environment", b.environment⟩] ++
    (if isParentSpan then [] else [⟨"parent.id", b.parentSpanId⟩])

/-- The record value built by `createLogRecord`.  `dateNow` is the
`Date.now()` reading and `sid` the freshly generated span id used when the
record is not the parent-span record. -/
def OtelBackend.buildRecord (b : OtelBackend) (level : LogLevel) (message : String)
    (attrs : Option (List (String × JSValue))) (isParentSpan : Bool)
    (dateNow : Nat) (sid : String) : LogRecord :=
  let now := assignTs b.lastTimestamp dateNow
  { timestamp := toString now
    observedTimestamp := toString now
    severityNumber := mapLogLevelToSeverityNumber level
    severityText := level.toText
    body := message
    traceId := b.parentTraceId
    spanId := if isParentSpan then b.parentSpanId else sid
    attributes := fixedAttrs b level isParentSpan ++
      (attrs.getD []).map (fun kv => ⟨kv.1, coerceAttrValue kv.2⟩) }

/-- `createLogRecord`: advance `lastTimestamp` and push the built record onto
the queue. -/
def OtelBackend.createLogRecord (b : OtelBackend) (level : LogLevel)
    (message : String) (attrs : Option (List (String × JSValue)))
    (isParentSpan : Bool) (dateNow : Nat) (sid : String) : OtelBackend :=
  { b with
    lastTimestamp := assignTs b.lastTimestamp dateNow
    logQueue := b.logQueue ++ [b.buildRecord level message attrs isParentSpan dateNow sid] }

/-- Outcome of one `fetch` call: a thrown network error, or a response with
its `ok` flag (`ok = false` covers every non-2xx status). -/
inductive FetchResult where
  | netError
  | response (ok : Bool)
deriving DecidableEq, Repr

/-- A delivery attempt succeeds only on a response with `ok = true`; a
non-ok response is thrown and lands in the same catch as a network error. -/
def FetchResult.succeeded : FetchResult → Bool
  | .response true => true
  | _ => false

/-- The retry loop of `flush`: at most `allowed` fetch attempts, where
`allowed = maxRetries + 1` (the retry counter starts at 0 and the loop runs
while it is at most `maxRetries`).  Returns the number of fetch calls made
and whether one of them succeeded.  `idx` numbers the attempts so that the
environment `outcomes` can answer each one. -/
def tryDeliver (outcomes : Nat → FetchResult) : Nat → Nat → Nat × Bool
  | 0, _ => (0, false)
  | n + 1, idx =>
      if (outcomes idx).succeeded then (1, true)
      else
        let r := tryDeliver outcomes n (idx + 1)
        (r.1 + 1, r.2)

/-- How a `flush` call ended. -/
inductive FlushOutcome where
  | emptyQueue
  | noEndpoint
  | delivered
  | abandoned
deriving DecidableEq, Repr

/-- Observable result of one `flush` call: the transport state afterwards,
how many fetch calls were made, how the call ended, the batch contained in a
successfully delivered payload, and the headers passed to each fetch call. -/
structure FlushResult where
  backend : OtelBackend
  fetchCalls : Nat
  outcome : FlushOutcome
  sentBatch : Option (List LogRecord)
  requestHeaders : List (List (String × String))
deriving DecidableEq, Repr

/-- `flush` from otel.ts (the retrying variant).  `during` lists the records
that callers enqueue while the flush is suspended at an await; they land in
the live queue.  An empty queue returns at once and an empty endpoint
returns synchronously inside the first loop iteration (after the queue swap,
before any fetch), so neither of those paths can interleave with `during`.
On abandonment the undelivered batch is put back in front of the live
queue: `this.logQueue = [...queue, ...this.logQueue]`.  The function is
total: no path raises to the caller. -/
def OtelBackend.flush (b : OtelBackend) (outcomes : Nat → FetchResult)
    (during : List LogRecord) : FlushResult :=
  if b.logQueue = [] then
    { backend := b, fetchCalls := 0, outcome := .emptyQueue
      sentBatch := none, requestHeaders := [] }
  else
    let batch := b.logQueue
    if b.endpoint = "" then
      { backend := { b with logQueue := [] }, fetchCalls := 0
        outcome := .noEndpoint, sentBatch := none, requestHeaders := [] }
    else
      let r := tryDeliver outcomes (b.maxRetries + 1) 0
      if r.2 then
        { backend := { b with logQueue := during }, fetchCalls := r.1
          outcome := .delivered, sentBatch := some batch
          requestHeaders := List.replicate r.1 b.headers }
      else
        { backend := { b with logQueue := batch ++ during }, fetchCalls := r.1
          outcome := .abandoned, sentBatch := none
          requestHeaders := List.replicate r.1 b.headers }

/-- A JavaScript `Error` value, as read by `Logger.error`. -/
structure JSError where
  name : String
  message : String
  stack : String
deriving DecidableEq, Repr

/-- The contextual Logger facade.  `backendRef` is an index into the
transport heap, modelling the by-reference `otelBackend` field; `none` is a
console-only logger. -/
structure Logger where
  backendRef : Option Nat
  serviceName : String
  environment : String
  contextPath : String
deriving DecidableEq, Repr

/-- The transport heap: JavaScript object identity for `OtelBackend`
instances is modelled by position in this list. -/
abbrev Heap := List OtelBackend

/-- `formatMessage`: prefix the context path when it is nonempty (JavaScript
string truthiness). -/
def Logger.formatMessage (lg : Logger) (message : String) : String :=
  if lg.contextPath ≠ "" then "[" ++ lg.contextPath ++ "] " ++ message else message

/-- The Logger value returned by `newContext`: the same backend reference as
the parent, the parent names when a transport is present (the constructor
receives a config built from them) and the console-only defaults otherwise,
and the `:`-joined context path. -/
def Logger.newContext (lg : Logger) (context : String) : Logger :=
  let newPath := if lg.contextPath ≠ "" then lg.contextPath ++ ":" ++ context else context
  match lg.backendRef with
  | some r =>
      { backendRef := some r, serviceName := lg.serviceName
        environment := lg.environment, contextPath := newPath }
  | none =>
      { backendRef := none, serviceName := "console-logger"
        environment := "development", contextPath := newPath }

/-- `newContext` with its heap effect: when the parent holds a transport,
`new Logger(config, ...)` allocates a transient second `OtelBackend` (with
empty endpoint and headers) before the `otelBackend` field is overwritten
with the parent reference; the transient object stays unreferenced on the
heap.  `tid` and `sid` are the random ids the transient constructor draws. -/
def Logger.newContextAlloc (lg : Logger) (context : String) (hp : Heap)
    (tid sid : String) : Logger × Heap :=
  match lg.backendRef with
  | some _ =>
      (lg.newContext context,
       hp ++ [OtelBackend.construct ⟨"", [], lg.serviceName, lg.environment⟩ tid sid])
  | none => (lg.newContext context, hp)

/-- A chain of `newContext` calls. -/
def Logger.deriveChain (lg : Logger) : List String → Logger
  | [] => lg
  | c :: cs => Logger.deriveChain (lg.newContext c) cs

/-- `Logger.flush`: `await this.otelBackend?.flush()`, a no-op without a
transport (or with a dangling reference). -/
def Logger.flushHeap (lg : Logger) (hp : Heap) (outcomes : Nat → FetchResult) :
    Heap :=
  match lg.backendRef with
  | some i =>
      match hp[i]? with
      | some b => hp.set i (b.flush outcomes []).backend
      | none => hp
  | none => hp

/-- `Logger.error`: format the message, copy the caller attributes and
assign `errorName` / `errorMessage` / `errorStack` onto the copy when an
error value is supplied, then build and enqueue an ERROR record on the
referenced transport. -/
def Logger.error (lg : Logger) (hp : Heap) (message : String)
    (err : Option JSError) (attrs : Option (List (String × JSValue)))
    (dateNow : Nat) (sid : String) : Heap :=
  let formatted := lg.formatMessage message
  let base := attrs.getD []
  let errorAttributes :=
    match err with
    | some e =>
        recordSet
          (recordSet (recordSet base "errorName" (JSValue.vstr e.name))
            "errorMessage" (JSValue.vstr e.message))
          "errorStack" (JSValue.vstr e.stack)
    | none => base
  match lg.backendRef with
  | some i =>
      match hp[i]? with
      | some b =>
          hp.set i (b.createLogRecord LogLevel.ERROR formatted
            (some errorAttributes) false dateNow sid)
      | none => hp
  | none => hp

/-- Observable steps of `withLogger`, in order. -/
inductive WLEvent where
  | loggedError
  | didFlush
deriving DecidableEq, Repr

/-- `withLogger(fn)`: run `fn` with this logger installed in the ambient
slot; on normal completion flush once and return the result, on a raise
record the failure via `error()`, flush once, and re-raise the identical
error value.  `fnOutcome` is how the wrapped function settled. -/
def Logger.withLogger {α : Type} (lg : Logger) (hp : Heap)
    (fnOutcome : Except JSError α) (outcomes : Nat → FetchResult)
    (dateNow : Nat) (sid : String) :
    Except JSError α × Heap × List WLEvent :=
  match fnOutcome with
  | Except.ok a => (Except.ok a, lg.flushHeap hp outcomes, [WLEvent.didFlush])
  | Except.error e =>
      let hp1 := lg.error hp "withLogger error - flushing" (some e) none dateNow sid
      (Except.error e, lg.flushHeap hp1 outcomes,
        [WLEvent.loggedError, WLEvent.didFlush])

/-- The console-only Logger produced by `new Logger()` with no config. -/
def consoleOnlyLogger : Logger :=
  { backendRef := none, serviceName := "console-logger"
    environment := "development", contextPath := "" }

/-- The module-level ambient state: the AsyncLocalStorage slot and the
process-wide has-warned flag. -/
structure AmbientState where
  store : Option Logger
  hasWarned : Bool
deriving DecidableEq, Repr

/-- `getCurrentLogger`: the stored logger when inside a scope; otherwise a
fresh console-only logger, warning exactly when the flag was still unset.
The returned Bool tells whether this call printed the warning. -/
def getCurrentLogger (st : AmbientState) : Logger × AmbientState × Bool :=
  match st.store with
  | some lg => (lg, st, false)
  | none =>
      (consoleOnlyLogger, { st with hasWarned := true }, !st.hasWarned)

/-- A sequence of `n` `getCurrentLogger` calls; returns the final state, the
number of warnings printed, and the loggers returned. -/
def runLookups : AmbientState → Nat → AmbientState × Nat × List Logger
  | st, 0 => (st, 0, [])
  | st, n + 1 =>
      let r := getCurrentLogger st
      let rest := runLookups r.2.1 n
      (rest.1, (if r.2.2 then 1 else 0) + rest.2.1, r.1 :: rest.2.2)

/-- One level-method call on a transport-backed logger: the level, the
formatted message, the caller attributes, and the effect inputs. -/
structure LevelCall where
  level : LogLevel
  message : String
  attrs : Option (List (String × JSValue))
  dateNow : Nat
  sid : String
deriving Repr

/-- Run a sequence of level-method calls on one transport (each call reaches
`createLogRecord` with `isParentSpan` left at its default `false`). -/
def runCalls (b : OtelBackend) : List LevelCall → OtelBackend
  | [] => b
  | c :: cs => runCalls (b.createLogRecord c.level c.message c.attrs false c.dateNow c.sid) cs

/-! ## Helper lemmas -/

/-- When every attempt fails, the retry loop makes exactly as many fetch
calls as it is allowed and reports failure. -/
theorem tryDeliver_all_fail (outcomes : Nat → FetchResult)
    (h : ∀ i, (outcomes i).succeeded = false) :
    ∀ n idx, tryDeliver outcomes n idx = (n, false) := by
  intro n
  induction n with
  | zero => intro idx; rfl
  | succ n ih =>
      intro idx
      simp [tryDeliver, h idx, ih]

/-! ## Claims -/

/-- Claim C1: for a transport with a non-empty endpoint whose delivery
always fails (network error or non-2xx response), a single flush on a
non-empty queue makes exactly 1 + maxRetries = 4 fetch attempts, then
re-merges the undelivered batch onto the front of the live queue, ahead of
the records enqueued during the attempt, and returns without raising (the
call ends in the Abandoned outcome; the model of flush is a total
function).  A subsequent flush whose first attempt succeeds delivers a
payload containing exactly those records and drains the queue. -/
theorem claim_C1 (b : OtelBackend) (during : List LogRecord)
    (outcomes outcomes2 : Nat → FetchResult)
    (hq : b.logQueue ≠ []) (he : b.endpoint ≠ "") (hm : b.maxRetries = 3)
    (hfail : ∀ i, (outcomes i).succeeded = false)
    (hok : (outcomes2 0).succeeded = true) :
    (b.flush outcomes during).fetchCalls = 4 ∧
    (b.flush outcomes during).outcome = FlushOutcome.abandoned ∧
    (b.flush outcomes during).backend.logQueue = b.logQueue ++ during ∧
    ((b.flush outcomes during).backend.flush outcomes2 []).outcome =
      FlushOutcome.delivered ∧
    ((b.flush outcomes during).backend.flush outcomes2 []).sentBatch =
      some (b.logQueue ++ during) ∧
    ((b.flush outcomes during).backend.flush outcomes2 []).backend.logQueue = [] := by
  have hq2 : b.logQueue ++ during ≠ [] := by
    intro hc
    exact hq (List.append_eq_nil.mp hc).1
  have hfl : b.flush outcomes during =
      { backend := { b with logQueue := b.logQueue ++ during }, fetchCalls := 4
        outcome := .abandoned, sentBatch := none
        requestHeaders := List.replicate 4 b.headers } := by
    unfold OtelBackend.flush
    rw [if_neg hq, if_neg he, hm, tryDeliver_all_fail outcomes hfail]
    rfl
  have hfl2 : ({ b with logQueue := b.logQueue ++ during } : OtelBackend).flush
        outcomes2 [] =
      { backend := { b with logQueue := [] }, fetchCalls := 1
        outcome := .delivered, sentBatch := some (b.logQueue ++ during)
        requestHeaders := List.replicate 1 b.headers } := by
    unfold OtelBackend.flush
    rw [if_neg hq2, if_neg he, hm]
    have h4 : tryDeliver outcomes2 (3 + 1) 0 = (1, true) := by
      simp [tryDeliver, hok]
    rw [h4]
    rfl
  rw [hfl, hfl2]
  exact ⟨rfl, rfl, rfl, rfl, rfl, rfl⟩

/-- Concrete witness for claim C1: a freshly constructed transport with one
queued record, an environment that always answers HTTP failure, then one
that answers success. -/
def c1backend : OtelBackend :=
  (OtelBackend.construct
    ⟨"https://collector.example/v1/logs", [("Authorization", "tok")], "svc", "prod"⟩
    "tid" "sid").createLogRecord LogLevel.INFO "hello" none false 5 "sp1"

theorem claim_C1_witness :
    (c1backend.flush (fun _ => FetchResult.response false) []).fetchCalls = 4 ∧
    (c1backend.flush (fun _ => FetchResult.response false) []).outcome =
      FlushOutcome.abandoned ∧
    (c1backend.flush (fun _ => FetchResult.response false) []).backend.logQueue =
      c1backend.logQueue ++ [] ∧
    ((c1backend.flush (fun _ => FetchResult.response false) []).backend.flush
        (fun _ => FetchResult.response true) []).outcome = FlushOutcome.delivered ∧
    ((c1backend.flush (fun _ => FetchResult.response false) []).backend.flush
        (fun _ => FetchResult.response true) []).sentBatch =
      some (c1backend.logQueue ++ []) ∧
    ((c1backend.flush (fun _ => FetchResult.response false) []).backend.flush
        (fun _ => FetchResult.response true) []).backend.logQueue = [] :=
  claim_C1 c1backend [] (fun _ => FetchResult.response false)
    (fun _ => FetchResult.response true) (by decide) (by decide) rfl
    (fun _ => rfl) rfl

/-- Fresh transport used to exhibit the timestamp-collision bug of claim
C2. -/
def c2backend : OtelBackend :=
  OtelBackend.construct ⟨"https://collector.example/v1/logs", [], "svc", "prod"⟩
    "t" "s"

/-- Claim C2 (code bug): the claim states the intended invariant — and the
source comment reads: ensure unique timestamps by incrementing if same as
last — but the arithmetic runs on IEEE-754 binary64 numbers.  At the
failing input, two level-method calls on a fresh transport during the same
millisecond with Date.now() = 1760000000000, the computed nanosecond value
1760000000000000000 lies above 2^60 where the unit in the last place is
256, so the bump lastTimestamp + 1 rounds back to lastTimestamp: both
records receive the identical timestamp and strict monotonicity fails. -/
theorem claim_C2 :
    (runCalls c2backend
        [⟨LogLevel.INFO, "first", none, 1760000000000, "s1"⟩,
         ⟨LogLevel.INFO, "second", none, 1760000000000, "s2"⟩]).logQueue.map
        (fun r => r.timestamp) =
      ["1760000000000000000", "1760000000000000000"] ∧
    roundDouble (1760000000000000000 + 1) = 1760000000000000000 ∧
    assignTs 1760000000000000000 1760000000000 = 1760000000000000000 := by
  refine ⟨by decide, by decide, by decide⟩

/-- `newContext` preserves the backend reference of the parent in both the
transport-backed and the console-only branch. -/
theorem newContext_backendRef (lg : Logger) (c : String) :
    (lg.newContext c).backendRef = lg.backendRef := by
  cases hb : lg.backendRef <;> simp [Logger.newContext, hb]

/-- The context path produced by `newContext`. -/
theorem newContext_path (lg : Logger) (c : String) :
    (lg.newContext c).contextPath =
      if lg.contextPath ≠ "" then lg.contextPath ++ ":" ++ c else c := by
  cases hb : lg.backendRef <;> simp [Logger.newContext, hb]

/-- Any chain of `newContext` calls preserves the backend reference. -/
theorem deriveChain_backendRef (names : List String) :
    ∀ lg : Logger, (Logger.deriveChain lg names).backendRef = lg.backendRef := by
  induction names with
  | nil => intro lg; rfl
  | cons c cs ih =>
      intro lg
      rw [Logger.deriveChain, ih, newContext_backendRef]

/-- Appending to a nonempty string yields a nonempty string. -/
theorem string_append_ne_empty (a s : String) (h : a ≠ "") : a ++ s ≠ "" := by
  intro hc
  apply h
  have hd : (a ++ s).data = ([] : List Char) := by rw [hc]
  rw [String.data_append] at hd
  have ha : a.data = [] := (List.append_eq_nil.mp hd).1
  cases a
  simp_all

/-- Claim C3: when the wrapped function raises, `withLogger` first records
the failure through `error()`, then performs exactly one flush, and then
re-raises the identical failure value; when it completes normally,
`withLogger` flushes once and returns its result. -/
theorem claim_C3 {α : Type} (lg : Logger) (hp : Heap) (fnOutcome : Except JSError α)
    (outcomes : Nat → FetchResult) (dateNow : Nat) (sid : String) :
    (lg.withLogger hp fnOutcome outcomes dateNow sid).1 = fnOutcome ∧
    ((lg.withLogger hp fnOutcome outcomes dateNow sid).2.2).count WLEvent.didFlush = 1 ∧
    (∀ e : JSError, fnOutcome = Except.error e →
      (lg.withLogger hp fnOutcome outcomes dateNow sid).2.2 =
        [WLEvent.loggedError, WLEvent.didFlush] ∧
      (lg.withLogger hp fnOutcome outcomes dateNow sid).2.1 =
        lg.flushHeap
          (lg.error hp "withLogger error - flushing" (some e) none dateNow sid)
          outcomes) ∧
    (∀ a : α, fnOutcome = Except.ok a →
      (lg.withLogger hp fnOutcome outcomes dateNow sid).2.2 = [WLEvent.didFlush] ∧
      (lg.withLogger hp fnOutcome outcomes dateNow sid).2.1 =
        lg.flushHeap hp outcomes) := by
  cases fnOutcome with
  | ok a =>
      refine ⟨rfl, rfl, ?_, ?_⟩
      · intro e he
        exact absurd he (by simp)
      · intro a2 ha
        exact ⟨rfl, rfl⟩
  | error e =>
      refine ⟨rfl, rfl, ?_, ?_⟩
      · intro e2 he
        injection he with h2
        subst h2
        exact ⟨rfl, rfl⟩
      · intro a ha
        exact absurd ha (by simp)

/-- Concrete error value for the C3 witness. -/
def c3err : JSError := ⟨"Error", "boom", "stacktrace"⟩

theorem claim_C3_witness :
    (consoleOnlyLogger.withLogger [] (Except.error c3err : Except JSError Nat)
        (fun _ => FetchResult.response true) 0 "sp").1 = Except.error c3err ∧
    (consoleOnlyLogger.withLogger [] (Except.error c3err : Except JSError Nat)
        (fun _ => FetchResult.response true) 0 "sp").2.2 =
      [WLEvent.loggedError, WLEvent.didFlush] ∧
    (consoleOnlyLogger.withLogger [] (Except.ok 42 : Except JSError Nat)
        (fun _ => FetchResult.response true) 0 "sp").2.2 = [WLEvent.didFlush] :=
  ⟨(claim_C3 consoleOnlyLogger [] (Except.error c3err : Except JSError Nat)
      (fun _ => FetchResult.response true) 0 "sp").1,
   ((claim_C3 consoleOnlyLogger [] (Except.error c3err : Except JSError Nat)
      (fun _ => FetchResult.response true) 0 "sp").2.2.1 c3err rfl).1,
   ((claim_C3 consoleOnlyLogger [] (Except.ok 42 : Except JSError Nat)
      (fun _ => FetchResult.response true) 0 "sp").2.2.2 42 rfl).1⟩

/-- Claim C4: `newContext` returns a Logger holding the exact same transport
reference as its parent (the transiently allocated second transport is
dropped, and the shared transport on the heap is untouched), it inherits the
parent serviceName and environment, and every logger derived through any
chain of `newContext` calls still references the same transport. -/
theorem claim_C4 (lg : Logger) (r : Nat) (c : String) (names : List String)
    (hp : Heap) (tid sid : String) (h : lg.backendRef = some r)
    (hr : r < hp.length) :
    (lg.newContext c).backendRef = some r ∧
    (lg.newContext c).serviceName = lg.serviceName ∧
    (lg.newContext c).environment = lg.environment ∧
    (lg.newContextAlloc c hp tid sid).1 = lg.newContext c ∧
    ((lg.newContextAlloc c hp tid sid).2)[r]? = hp[r]? ∧
    (Logger.deriveChain lg names).backendRef = some r := by
  refine ⟨?_, ?_, ?_, ?_, ?_, ?_⟩
  · rw [newContext_backendRef, h]
  · simp [Logger.newContext, h]
  · simp [Logger.newContext, h]
  · simp [Logger.newContextAlloc, h]
  · simp only [Logger.newContextAlloc, h]
    exact List.getElem?_append_left hr
  · rw [deriveChain_backendRef, h]

/-- Concrete transport and root logger for the C4 witness. -/
def c4backend : OtelBackend :=
  OtelBackend.construct ⟨"https://collector.example/v1/logs", [], "svc", "prod"⟩ "t" "s"

def c4logger : Logger :=
  { backendRef := some 0, serviceName := "svc", environment := "prod", contextPath := "" }

theorem claim_C4_witness :
    (c4logger.newContext "job").backendRef = some 0 ∧
    (c4logger.newContext "job").serviceName = c4logger.serviceName ∧
    (c4logger.newContext "job").environment = c4logger.environment ∧
    (c4logger.newContextAlloc "job" [c4backend] "t2" "s2").1 =
      c4logger.newContext "job" ∧
    ((c4logger.newContextAlloc "job" [c4backend] "t2" "s2").2)[0]? =
      [c4backend][0]? ∧
    (Logger.deriveChain c4logger ["a", "b"]).backendRef = some 0 :=
  claim_C4 c4logger 0 "job" ["a", "b"] [c4backend] "t2" "s2" rfl (by decide)

/-- Claim C5: with an empty endpoint and a non-empty queue, flush resolves
successfully without any fetch call, logs the no-endpoint diagnostic, and
leaves the queue drained; with an empty queue, flush is a no-op success. -/
theorem claim_C5 (b : OtelBackend) (outcomes : Nat → FetchResult)
    (during : List LogRecord) :
    (b.endpoint = "" → b.logQueue ≠ [] →
      (b.flush outcomes during).outcome = FlushOutcome.noEndpoint ∧
      (b.flush outcomes during).fetchCalls = 0 ∧
      (b.flush outcomes during).requestHeaders = [] ∧
      (b.flush outcomes during).backend.logQueue = []) ∧
    (b.logQueue = [] →
      (b.flush outcomes during).backend = b ∧
      (b.flush outcomes during).fetchCalls = 0 ∧
      (b.flush outcomes during).outcome = FlushOutcome.emptyQueue) := by
  constructor
  · intro he hq
    unfold OtelBackend.flush
    rw [if_neg hq, if_pos he]
    exact ⟨rfl, rfl, rfl, rfl⟩
  · intro hq
    unfold OtelBackend.flush
    rw [if_pos hq]
    exact ⟨rfl, rfl, rfl⟩

/-- Transport with empty endpoint and one queued record. -/
def c5empty : OtelBackend :=
  (OtelBackend.construct ⟨"", [], "svc", "prod"⟩ "t" "s").createLogRecord
    LogLevel.INFO "m" none false 3 "sp"

/-- Transport with an endpoint but an empty queue. -/
def c5noq : OtelBackend :=
  OtelBackend.construct ⟨"https://collector.example/v1/logs", [], "svc", "prod"⟩ "t" "s"

theorem claim_C5_witness :
    ((c5empty.flush (fun _ => FetchResult.netError) []).outcome =
        FlushOutcome.noEndpoint ∧
      (c5empty.flush (fun _ => FetchResult.netError) []).fetchCalls = 0 ∧
      (c5empty.flush (fun _ => FetchResult.netError) []).requestHeaders = [] ∧
      (c5empty.flush (fun _ => FetchResult.netError) []).backend.logQueue = []) ∧
    ((c5noq.flush (fun _ => FetchResult.netError) []).backend = c5noq ∧
      (c5noq.flush (fun _ => FetchResult.netError) []).fetchCalls = 0 ∧
      (c5noq.flush (fun _ => FetchResult.netError) []).outcome =
        FlushOutcome.emptyQueue) :=
  ⟨(claim_C5 c5empty (fun _ => FetchResult.netError) []).1 rfl (by decide),
   (claim_C5 c5noq (fun _ => FetchResult.netError) []).2 rfl⟩

/-- Claim C6: from a root logger, `newContext("a").newContext("b")` has
context path `a:b`, messages logged through it are prefixed with `[a:b] `,
and a logger with an empty context path logs the message unprefixed. -/
theorem claim_C6 (lg : Logger) (a b msg : String)
    (hroot : lg.contextPath = "") (ha : a ≠ "") :
    ((lg.newContext a).newContext b).contextPath = a ++ ":" ++ b ∧
    ((lg.newContext a).newContext b).formatMessage msg =
      "[" ++ (a ++ ":" ++ b) ++ "] " ++ msg ∧
    lg.formatMessage msg = msg := by
  have h1 : (lg.newContext a).contextPath = a := by
    rw [newContext_path, hroot]
    simp
  have h2 : ((lg.newContext a).newContext b).contextPath = a ++ ":" ++ b := by
    rw [newContext_path, h1, if_pos]
    exact ha
  have hne : a ++ ":" ++ b ≠ "" :=
    string_append_ne_empty (a ++ ":") b (string_append_ne_empty a ":" ha)
  refine ⟨h2, ?_, ?_⟩
  · unfold Logger.formatMessage
    rw [h2, if_pos hne]
  · unfold Logger.formatMessage
    rw [hroot]
    simp

theorem claim_C6_witness :
    ((consoleOnlyLogger.newContext "a").newContext "b").contextPath =
      "a" ++ ":" ++ "b" ∧
    ((consoleOnlyLogger.newContext "a").newContext "b").formatMessage "hello" =
      "[" ++ ("a" ++ ":" ++ "b") ++ "] " ++ "hello" ∧
    consoleOnlyLogger.formatMessage "hello" = "hello" :=
  claim_C6 consoleOnlyLogger "a" "b" "hello" rfl (by decide)

/-- Claim C7: every record built by a transport carries the `level`,
`service.name` and `environment` attributes; every record built with
`isParentSpan = false` additionally carries `parent.id` equal to the fixed
root span id of the transport; the parent-span record (whose caller
attributes contain no `parent.id` key, as in the one call site that builds
it) has no `parent.id` attribute and carries the root span id as its
`spanId`; and `createLogRecord` appends exactly the built record. -/
theorem claim_C7 (b : OtelBackend) (level : LogLevel) (msg : String)
    (attrs : Option (List (String × JSValue))) (isParentSpan : Bool)
    (dateNow : Nat) (sid : String) :
    Attribute.mk "level" level.toLower ∈
      (b.buildRecord level msg attrs isParentSpan dateNow sid).attributes ∧
    Attribute.mk "service.name" b.serviceName ∈
      (b.buildRecord level msg attrs isParentSpan dateNow sid).attributes ∧
    Attribute.mk "environment" b.environment ∈
      (b.buildRecord level msg attrs isParentSpan dateNow sid).attributes ∧
    (isParentSpan = false →
      Attribute.mk "parent.id" b.parentSpanId ∈
        (b.buildRecord level msg attrs isParentSpan dateNow sid).attributes) ∧
    (isParentSpan = true →
      (b.buildRecord level msg attrs isParentSpan dateNow sid).spanId =
        b.parentSpanId) ∧
    (isParentSpan = true →
      (∀ kv ∈ attrs.getD [], kv.1 ≠ "parent.id") →
      ∀ att ∈ (b.buildRecord level msg attrs isParentSpan dateNow sid).attributes,
        att.key ≠ "parent.id") ∧
    (b.createLogRecord level msg attrs isParentSpan dateNow sid).logQueue =
      b.logQueue ++ [b.buildRecord level msg attrs isParentSpan dateNow sid] := by
  refine ⟨?_, ?_, ?_, ?_, ?_, ?_, rfl⟩
  · simp [OtelBackend.buildRecord, fixedAttrs]
  · simp [OtelBackend.buildRecord, fixedAttrs]
  · simp [OtelBackend.buildRecord, fixedAttrs]
  · intro hps
    subst hps
    simp [OtelBackend.buildRecord, fixedAttrs]
  · intro hps
    subst hps
    simp [OtelBackend.buildRecord]
  · intro hps hclean att hmem
    subst hps
    have hattr : (b.buildRecord level msg attrs true dateNow sid).attributes =
        [Attribute.mk "level" level.toLower,
         Attribute.mk "service.name" b.serviceName,
         Attribute.mk "environment" b.environment] ++
          (attrs.getD []).map (fun kv => ⟨kv.1, coerceAttrValue kv.2⟩) := by
      simp [OtelBackend.buildRecord, fixedAttrs]
    rw [hattr, List.mem_append] at hmem
    rcases hmem with hfix | hmap
    · rcases List.mem_cons.mp hfix with h1 | hfix
      · subst h1
        show ("level" : String) ≠ "parent.id"
        decide
      rcases List.mem_cons.mp hfix with h2 | hfix
      · subst h2
        show ("service.name" : String) ≠ "parent.id"
        decide
      rcases List.mem_cons.mp hfix with h3 | hfix
      · subst h3
        show ("environment" : String) ≠ "parent.id"
        decide
      · exact absurd hfix (List.not_mem_nil att)
    · obtain ⟨kv, hkv, heq⟩ := List.mem_map.mp hmap
      intro hc
      apply hclean kv hkv
      rw [← heq] at hc
      exact hc

/-- Claim C10: the attribute sequence of a built record is the fixed
attributes followed by the caller attributes in insertion order, each value
coerced to a string, and a caller attribute reusing a fixed key is appended
as an extra entry while the first occurrence of each fixed key keeps the
fixed value. -/
theorem claim_C10 (b : OtelBackend) (level : LogLevel) (msg : String)
    (attrs : List (String × JSValue)) (isParentSpan : Bool) (dateNow : Nat)
    (sid : String) :
    (b.buildRecord level msg (some attrs) isParentSpan dateNow sid).attributes =
      fixedAttrs b level isParentSpan ++
        attrs.map (fun kv => ⟨kv.1, coerceAttrValue kv.2⟩) ∧
    (b.buildRecord level msg (some attrs) isParentSpan dateNow sid).attributes.find?
        (fun att => att.key == "level") = some ⟨"level", level.toLower⟩ ∧
    (b.buildRecord level msg (some attrs) isParentSpan dateNow sid).attributes.find?
        (fun att => att.key == "service.name") =
      some ⟨"service.name", b.serviceName⟩ ∧
    (b.buildRecord level msg (some attrs) isParentSpan dateNow sid).attributes.find?
        (fun att => att.key == "environment") =
      some ⟨"environment", b.environment⟩ := by
  have hattr : (b.buildRecord level msg (some attrs) isParentSpan dateNow sid).attributes =
      Attribute.mk "level" level.toLower ::
        Attribute.mk "service.name" b.serviceName ::
          Attribute.mk "environment" b.environment ::
            ((if isParentSpan then [] else [Attribute.mk "parent.id" b.parentSpanId]) ++
              attrs.map (fun kv => ⟨kv.1, coerceAttrValue kv.2⟩)) := by
    simp [OtelBackend.buildRecord, fixedAttrs]
  refine ⟨by simp [OtelBackend.buildRecord], ?_, ?_, ?_⟩
  · rw [hattr, List.find?_cons_of_pos _ rfl]
  · rw [hattr, List.find?_cons_of_neg _ (fun h => Bool.noConfusion h),
      List.find?_cons_of_pos _ rfl]
  · rw [hattr, List.find?_cons_of_neg _ (fun h => Bool.noConfusion h),
      List.find?_cons_of_neg _ (fun h => Bool.noConfusion h),
      List.find?_cons_of_pos _ rfl]

/-- Concrete transport for the C7 witness. -/
def c7b : OtelBackend :=
  OtelBackend.construct
    ⟨"https://collector.example/v1/logs", [], "svc", "prod"⟩ "trace0" "span0"

theorem claim_C7_witness :
    Attribute.mk "level" LogLevel.INFO.toLower ∈
      (c7b.buildRecord LogLevel.INFO "m" (some [("k", JSValue.vstr "v")]) false 7
        "s2").attributes ∧
    Attribute.mk "service.name" c7b.serviceName ∈
      (c7b.buildRecord LogLevel.INFO "m" (some [("k", JSValue.vstr "v")]) false 7
        "s2").attributes ∧
    Attribute.mk "environment" c7b.environment ∈
      (c7b.buildRecord LogLevel.INFO "m" (some [("k", JSValue.vstr "v")]) false 7
        "s2").attributes ∧
    Attribute.mk "parent.id" c7b.parentSpanId ∈
      (c7b.buildRecord LogLevel.INFO "m" (some [("k", JSValue.vstr "v")]) false 7
        "s2").attributes ∧
    (c7b.buildRecord LogLevel.INFO "m" (some [("k", JSValue.vstr "v")]) true 7
        "s2").spanId = c7b.parentSpanId ∧
    (∀ att ∈ (c7b.buildRecord LogLevel.INFO "m" (some [("k", JSValue.vstr "v")])
        true 7 "s2").attributes, att.key ≠ "parent.id") ∧
    (c7b.createLogRecord LogLevel.INFO "m" (some [("k", JSValue.vstr "v")]) false 7
        "s2").logQueue =
      c7b.logQueue ++
        [c7b.buildRecord LogLevel.INFO "m" (some [("k", JSValue.vstr "v")]) false 7
          "s2"] :=
  ⟨(claim_C7 c7b LogLevel.INFO "m" (some [("k", JSValue.vstr "v")]) false 7 "s2").1,
   (claim_C7 c7b LogLevel.INFO "m" (some [("k", JSValue.vstr "v")]) false 7 "s2").2.1,
   (claim_C7 c7b LogLevel.INFO "m" (some [("k", JSValue.vstr "v")]) false 7 "s2").2.2.1,
   (claim_C7 c7b LogLevel.INFO "m" (some [("k", JSValue.vstr "v")]) false 7
     "s2").2.2.2.1 rfl,
   (claim_C7 c7b LogLevel.INFO "m" (some [("k", JSValue.vstr "v")]) true 7
     "s2").2.2.2.2.1 rfl,
   (claim_C7 c7b LogLevel.INFO "m" (some [("k", JSValue.vstr "v")]) true 7
     "s2").2.2.2.2.2.1 rfl (by decide),
   (claim_C7 c7b LogLevel.INFO "m" (some [("k", JSValue.vstr "v")]) false 7
     "s2").2.2.2.2.2.2⟩

/-- After the warning flag is set, further fallback lookups leave the state
unchanged, print nothing, and keep returning console-only loggers. -/
theorem runLookups_after_warned (n : Nat) :
    (runLookups ⟨none, true⟩ n).1 = ⟨none, true⟩ ∧
    (runLookups ⟨none, true⟩ n).2.1 = 0 ∧
    (runLookups ⟨none, true⟩ n).2.2 = List.replicate n consoleOnlyLogger := by
  induction n with
  | zero => exact ⟨rfl, rfl, rfl⟩
  | succ m ih =>
      refine ⟨?_, ?_, ?_⟩
      · simpa only [runLookups, getCurrentLogger] using ih.1
      · simp only [runLookups, getCurrentLogger]
        simpa using ih.2.1
      · simp only [runLookups, getCurrentLogger, List.replicate]
        simpa using ih.2.2

/-- Claim C9: outside any withLogger scope, every getCurrentLogger call
returns a fresh console-only Logger, and across any sequence of fallback
lookups the warning is printed at most once — exactly on the first lookup
when the process-wide flag is still unset, and never afterwards. -/
theorem claim_C9 (st : AmbientState) (n : Nat) (hst : st.store = none) :
    (getCurrentLogger st).1 = consoleOnlyLogger ∧
    (getCurrentLogger st).2.2 = !st.hasWarned ∧
    (runLookups st n).2.2 = List.replicate n consoleOnlyLogger ∧
    (runLookups st n).2.1 = (if st.hasWarned then 0 else min 1 n) := by
  obtain ⟨store, warned⟩ := st
  have hs : store = none := hst
  subst hs
  cases warned
  · refine ⟨rfl, rfl, ?_, ?_⟩
    · cases n with
      | zero => rfl
      | succ m =>
          simp only [runLookups, getCurrentLogger, List.replicate]
          simpa using (runLookups_after_warned m).2.2
    · cases n with
      | zero => rfl
      | succ m =>
          simp [runLookups, getCurrentLogger, (runLookups_after_warned m).2.1]
  · refine ⟨rfl, rfl, ?_, ?_⟩
    · simpa using (runLookups_after_warned n).2.2
    · simpa using (runLookups_after_warned n).2.1

theorem claim_C9_witness :
    (getCurrentLogger ⟨none, false⟩).1 = consoleOnlyLogger ∧
    (getCurrentLogger ⟨none, false⟩).2.2 = !(false : Bool) ∧
    (runLookups ⟨none, false⟩ 3).2.2 = List.replicate 3 consoleOnlyLogger ∧
    (runLookups ⟨none, false⟩ 3).2.1 = (if (false : Bool) then 0 else min 1 3) :=
  claim_C9 ⟨none, false⟩ 3 rfl

/-- Setting a key not yet matched by the head commutes with cons. -/
theorem objSet_cons_ne (p : String × String) (t : List (String × String))
    (k v : String) (hp : p.1 ≠ k) :
    objSet (p :: t) k v = p :: objSet t k v := by
  have hb : (p.1 == k) = false := by simp [hp]
  unfold objSet
  simp only [List.any_cons, hb, Bool.false_or]
  by_cases ht : t.any (fun q => q.1 == k)
  · simp [ht, hb, hp]
  · simp [ht, hb, hp]

/-- Reading back the key just set yields the new value. -/
theorem objGet_objSet_self (m : List (String × String)) (k v : String) :
    objGet (objSet m k v) k = some v := by
  induction m with
  | nil => simp [objSet, objGet]
  | cons p t ih =>
      by_cases hp : p.1 = k
      · have hb : (p.1 == k) = true := by simp [hp]
        simp [objSet, objGet, List.any_cons, hb, hp]
      · rw [objSet_cons_ne p t k v hp]
        unfold objGet
        rw [List.find?_cons_of_neg _ (by simp [hp])]
        exact ih

/-- Overwriting the entries of one key leaves lookups of other keys
unchanged. -/
theorem objGet_map_set (t : List (String × String)) (k v k' : String)
    (hk : k' ≠ k) :
    objGet (t.map (fun q => if q.1 == k then (k, v) else q)) k' = objGet t k' := by
  induction t with
  | nil => rfl
  | cons q t ih =>
      by_cases hq : q.1 = k
      · have hb : (q.1 == k) = true := by simp [hq]
        unfold objGet
        simp only [List.map_cons, hb, if_true]
        rw [List.find?_cons_of_neg _ (by simp [Ne.symm hk]),
          List.find?_cons_of_neg _ (by simp [hq, Ne.symm hk])]
        exact ih
      · have hb : (q.1 == k) = false := by simp [hq]
        simp only [List.map_cons, hb, Bool.false_eq_true, if_false]
        by_cases hq' : q.1 = k'
        · unfold objGet
          rw [List.find?_cons_of_pos _ (by simp [hq']),
            List.find?_cons_of_pos _ (by simp [hq'])]
        · unfold objGet
          rw [List.find?_cons_of_neg _ (by simp [hq']),
            List.find?_cons_of_neg _ (by simp [hq'])]
          exact ih

/-- Appending a fresh entry for another key leaves lookups unchanged. -/
theorem objGet_append_single (m : List (String × String)) (k v k' : String)
    (hk : k' ≠ k) :
    objGet (m ++ [(k, v)]) k' = objGet m k' := by
  induction m with
  | nil =>
      unfold objGet
      rw [List.nil_append, List.find?_cons_of_neg _ (by simp [Ne.symm hk])]
  | cons q t ih =>
      unfold objGet at ih ⊢
      cases hq' : (q.1 == k') with
      | true => simp only [List.cons_append, List.find?_cons, hq']
      | false =>
          simp only [List.cons_append, List.find?_cons, hq']
          exact ih

/-- Setting one key leaves lookups of other keys unchanged. -/
theorem objGet_objSet_ne (m : List (String × String)) (k v k' : String)
    (hk : k' ≠ k) :
    objGet (objSet m k v) k' = objGet m k' := by
  unfold objSet
  by_cases hm : m.any (fun q => q.1 == k)
  · simp only [hm, if_true]
    exact objGet_map_set m k v k' hk
  · simp only [hm, Bool.false_eq_true, if_false]
    exact objGet_append_single m k v k' hk

/-- Spreading entries none of which use key `k` leaves `k` lookups at their
base value. -/
theorem objGet_objSpread_not_mem (add : List (String × String)) :
    ∀ (base : List (String × String)) (k : String),
      (∀ kv ∈ add, kv.1 ≠ k) →
      objGet (objSpread base add) k = objGet base k := by
  induction add with
  | nil => intro base k _; rfl
  | cons q t ih =>
      intro base k h
      have hspread : objSpread base (q :: t) = objSpread (objSet base q.1 q.2) t := by
        simp [objSpread]
      rw [hspread,
        ih (objSet base q.1 q.2) k (fun kv hkv => h kv (List.mem_cons_of_mem q hkv))]
      exact objGet_objSet_ne base q.1 q.2 k (Ne.symm (h q (List.mem_cons_self q t)))

/-- With duplicate-free keys (a JavaScript Record), every spread entry is
readable back under its key. -/
theorem objGet_objSpread_mem (add : List (String × String)) :
    ∀ (base : List (String × String)) (k v : String),
      (add.map Prod.fst).Nodup → (k, v) ∈ add →
      objGet (objSpread base add) k = some v := by
  induction add with
  | nil => intro base k v _ hm; cases hm
  | cons q t ih =>
      intro base k v hnd hm
      have hspread : objSpread base (q :: t) = objSpread (objSet base q.1 q.2) t := by
        simp [objSpread]
      rw [List.map_cons, List.nodup_cons] at hnd
      rcases List.mem_cons.mp hm with heq | htail
      · subst heq
        rw [hspread]
        have hknot : ∀ kv ∈ t, kv.1 ≠ (k, v).1 := by
          intro kv hkv hc
          exact hnd.1 (hc ▸ List.mem_map_of_mem Prod.fst hkv)
        rw [objGet_objSpread_not_mem t (objSet base (k, v).1 (k, v).2) (k, v).1 hknot]
        exact objGet_objSet_self base k v
      · rw [hspread]
        exact ih (objSet base q.1 q.2) k v hnd.2 htail

/-- The concrete misconfigured transport used to refute claim C8 as stated:
the caller supplies a Content-Type header of its own, and one record is
queued so that a flush issues a fetch. -/
def c8backend : OtelBackend :=
  (OtelBackend.construct
    ⟨"https://collector.example/v1/logs", [("Content-Type", "text/plain")],
      "svc", "prod"⟩ "t" "s").createLogRecord LogLevel.INFO "m" none false 1 "sp"

/-- Counterexample to claim C8 as stated: with caller headers containing
Content-Type: text/plain, the header object of the transport maps
Content-Type to text/plain, the entry (Content-Type, application/json) is
absent, and the headers passed to the fetch call of a delivering flush are
exactly the caller value — the request headers do not always contain
Content-Type: application/json. -/
theorem claim_C8_counterexample :
    objGet c8backend.headers "Content-Type" = some "text/plain" ∧
    ("Content-Type", "application/json") ∉ c8backend.headers ∧
    (c8backend.flush (fun _ => FetchResult.response true) []).requestHeaders =
      [[("Content-Type", "text/plain")]] := by
  refine ⟨by decide, by decide, by decide⟩

/-- Claim C8 (amended): the headers used on every outbound POST are the
caller-supplied headers spread over a default Content-Type of
application/json — every caller-supplied entry is present under its key,
the Content-Type entry is application/json whenever the caller supplies no
Content-Type of their own (a caller-supplied Content-Type replaces the
fixed default rather than coexisting with it), and every fetch call of a
flush uses exactly these merged headers. -/
theorem claim_C8_amended (cfg : OtelConfig) (tid sid : String) (b : OtelBackend)
    (outcomes : Nat → FetchResult) (during : List LogRecord)
    (hnd : (cfg.headers.map Prod.fst).Nodup)
    (hb : b.headers = mkHeaders cfg.headers) :
    (OtelBackend.construct cfg tid sid).headers = mkHeaders cfg.headers ∧
    (∀ kv ∈ cfg.headers,
      objGet (OtelBackend.construct cfg tid sid).headers kv.1 = some kv.2) ∧
    ((∀ kv ∈ cfg.headers, kv.1 ≠ "Content-Type") →
      objGet (OtelBackend.construct cfg tid sid).headers "Content-Type" =
        some "application/json") ∧
    (∀ hs ∈ (b.flush outcomes during).requestHeaders, hs = mkHeaders cfg.headers) := by
  refine ⟨rfl, ?_, ?_, ?_⟩
  · intro kv hkv
    obtain ⟨k, v⟩ := kv
    exact objGet_objSpread_mem cfg.headers
      [("Content-Type", "application/json")] k v hnd hkv
  · intro hct
    show objGet (mkHeaders cfg.headers) "Content-Type" = some "application/json"
    unfold mkHeaders
    rw [objGet_objSpread_not_mem cfg.headers
      [("Content-Type", "application/json")] "Content-Type" hct]
    rfl
  · intro hs hmem
    rw [← hb]
    unfold OtelBackend.flush at hmem
    split at hmem
    · exact absurd hmem (List.not_mem_nil hs)
    · split at hmem
      · exact absurd hmem (List.not_mem_nil hs)
      · dsimp only [] at hmem
        split at hmem
        · exact List.eq_of_mem_replicate hmem
        · exact List.eq_of_mem_replicate hmem

/-- Configuration and transport for the C8 amended-claim witness. -/
def c8wcfg : OtelConfig :=
  ⟨"https://collector.example/v1/logs", [("Authorization", "tok")], "svc", "prod"⟩

def c8wbackend : OtelBackend :=
  (OtelBackend.construct c8wcfg "t" "s").createLogRecord LogLevel.INFO "m" none
    false 1 "sp"

theorem claim_C8_amended_witness :
    (OtelBackend.construct c8wcfg "t" "s").headers = mkHeaders c8wcfg.headers ∧
    (∀ kv ∈ c8wcfg.headers,
      objGet (OtelBackend.construct c8wcfg "t" "s").headers kv.1 = some kv.2) ∧
    objGet (OtelBackend.construct c8wcfg "t" "s").headers "Content-Type" =
      some "application/json" ∧
    (∀ hs ∈ (c8wbackend.flush (fun _ => FetchResult.netError) []).requestHeaders,
      hs = mkHeaders c8wcfg.headers) := by
  have h := claim_C8_amended c8wcfg "t" "s" c8wbackend
    (fun _ => FetchResult.netError) [] (by decide) rfl
  exact ⟨h.1, h.2.1, h.2.2.1 (by decide), h.2.2.2⟩

end OtelSpec
